import Mathlib

/-
Verification of the Travel Content Generator bridge (src/streamlit_app.py).

The app is a single-page form: it assembles a JSON payload from form fields,
POSTs it to one of four endpoints, and keeps the last payload and the last
generated content in the per-session state. We embed the payload builder, the
HTTP wrapper call_api, and the two button handlers (Generate Content,
Regenerate with Feedback) as pure Lean functions over an explicit session
state and an abstract transport outcome.
-/

set_option autoImplicit false
set_option linter.unusedVariables false

namespace TravelApp

/-- JSON values as produced by the payload builder and decoded from responses.
Numbers are the non-negative integers the form can produce. -/
inductive Json where
  | null
  | str (s : String)
  | num (n : Nat)
  | arr (xs : List Json)
  | obj (kvs : List (String × Json))
deriving Repr

/-- A JSON object: an ordered key-value list, mirroring a Python dict whose
keys are in insertion order. -/
abbrev Obj := List (String × Json)

/-- Python dict assignment `d[k] = v`: replace the value at the first (and in
the dicts built here, only) occurrence of `k`, or append `(k, v)` at the end
when `k` is absent. -/
def Obj.setKey : Obj → String → Json → Obj
  | [], k, v => [(k, v)]
  | (k', v') :: rest, k, v =>
      if k' = k then (k', v) :: rest else (k', v') :: Obj.setKey rest k v

/-- Python `k in d` on a dict. -/
def Obj.hasKey (o : Obj) (k : String) : Bool :=
  o.any (fun p => p.1 = k)

/-- Lookup of the first occurrence of `k`. -/
def Obj.get? : Obj → String → Option Json
  | [], _ => none
  | (k', v) :: rest, k => if k' = k then some v else Obj.get? rest k

/-- Python `d.get(k, default)`. -/
def Obj.getD (o : Obj) (k : String) (d : Json) : Json :=
  (o.get? k).getD d

/-- The two entries of the MODELS dict, as offered by the model selectbox. -/
inductive Model where
  | claude35SonnetV2
  | llama3070b
deriving Repr, DecidableEq

/-- MODELS: the default model maps to no model_id (None); the alternative
maps to its Bedrock identifier. -/
def MODELS : Model → Option String
  | .claude35SonnetV2 => none
  | .llama3070b => some "us.meta.llama3-3-70b-instruct-v1:0"

/-- The four entries of the ENDPOINTS dict, as offered by the content-type
selectbox. -/
inductive ContentType where
  | hotelDescription
  | masterItinerary
  | extraDailyContents
  | freeFormatContent
deriving Repr, DecidableEq

/-- ENDPOINTS: content type to endpoint path. -/
def ENDPOINTS : ContentType → String
  | .hotelDescription => "/generate-hotel-reservation"
  | .masterItinerary => "/generate-master-itinerary"
  | .extraDailyContents => "/generate-extra-daily-contents"
  | .freeFormatContent => "/generate-free-format-content"

/-- The form fields read by the Generate Content handler. Dates are carried
as their strftime "%Y-%m-%d" rendering; the number inputs have min_value=0,
so the numeric fields are naturals. -/
structure FormFields where
  api_key : String
  selected_model : Model
  selected_endpoint : ContentType
  prompt : String
  destination_name : String
  trip_start_date : String
  trip_end_date : String
  client_age : Nat
  number_of_trips : Nat
  days_to_birthday : Nat
  places_visited : String
  client_since : Nat
deriving Repr, DecidableEq

/-- Helper for `str.split(",")`: cut a character list at every comma, the
piece accumulated so far held in reverse. -/
def splitCommaAux : List Char → List Char → List (List Char)
  | [], acc => [acc.reverse]
  | c :: cs, acc =>
      if c = ',' then acc.reverse :: splitCommaAux cs []
      else splitCommaAux cs (c :: acc)

/-- Python `s.split(",")`: the pieces between commas, in order; the empty
string yields [""] just as in Python. -/
def pySplit (s : String) : List String :=
  (splitCommaAux s.data []).map String.mk

/-- Python `s.strip()`: drop whitespace from both ends. -/
def pyStrip (s : String) : String :=
  String.mk (((s.data.dropWhile Char.isWhitespace).reverse.dropWhile
    Char.isWhitespace).reverse)

/-- The list comprehension
`[place.strip() for place in places_visited.split(",") if place.strip()]`:
split on commas, strip each piece, keep the non-empty stripped pieces. -/
def parsePlaces (s : String) : List String :=
  ((pySplit s).map pyStrip).filter (fun p => p ≠ "")

/-- Conditional dict insertion, `if cond: data[k] = v`. -/
def addIf (b : Bool) (o : Obj) (k : String) (v : Json) : Obj :=
  if b then o.setKey k v else o

/-- The content-type dependent part of the payload (lines 115-129). For free
format the prompt is always present, destination only when non-empty; the
two date branches test `if trip_start_date:` on a Python date object, which
is always truthy, so both dates are always added. For the other content
types destination and both dates are unconditional. -/
def baseData (f : FormFields) : Obj :=
  if f.selected_endpoint = ContentType.freeFormatContent then
    let d : Obj := [("prompt", Json.str f.prompt)]
    let d := addIf (f.destination_name ≠ "") d "destination_name" (Json.str f.destination_name)
    let d := d.setKey "trip_start_date" (Json.str f.trip_start_date)
    d.setKey "trip_end_date" (Json.str f.trip_end_date)
  else
    [("destination_name", Json.str f.destination_name),
     ("trip_start_date", Json.str f.trip_start_date),
     ("trip_end_date", Json.str f.trip_end_date)]

/-- `if MODELS[selected_model]: data["model_id"] = MODELS[selected_model]`.
None is falsy; the only stored identifier is a non-empty string, hence
truthy. -/
def addModelId (m : Model) (o : Obj) : Obj :=
  match MODELS m with
  | some mid => o.setKey "model_id" (Json.str mid)
  | none => o

/-- The payload assembled by the Generate Content handler once validation
has passed (lines 115-145): base fields, then model_id, then the optional
client fields, each guarded by Python truthiness of its input. -/
def buildData (f : FormFields) : Obj :=
  let d := baseData f
  let d := addModelId f.selected_model d
  let d := addIf (0 < f.client_age) d "client_age" (Json.num f.client_age)
  let d := addIf (0 < f.number_of_trips) d "number_of_trips" (Json.num f.number_of_trips)
  let d := addIf (0 < f.days_to_birthday) d "days_to_birthday" (Json.num f.days_to_birthday)
  let d := addIf (f.places_visited ≠ "") d "places_visited"
      (Json.arr ((parsePlaces f.places_visited).map Json.str))
  addIf (0 < f.client_since) d "client_since" (Json.num f.client_since)

/-- Outcome of the one `requests.post` call that call_api makes. `failure`
is a RequestException raised by the post itself (DNS, timeout, connection),
carrying its message. `response` is an HTTP response: status code, reason
phrase, the Content-Type header (`none` when absent), and the body, decoded
as a JSON object (`Sum.inl`) or undecodable with the given decoder message
(`Sum.inr`). -/
inductive Transport where
  | failure (msg : String)
  | response (status : Nat) (reason : String) (contentType : Option String)
      (body : Sum Obj String)
deriving Repr

/-- The fixed API origin and stage path. -/
def base_url : String :=
  "https://m0zpgns4ce.execute-api.us-east-1.amazonaws.com/stg-public"

/-- The message of the HTTPError that `response.raise_for_status()` raises:
nothing for status outside [400, 600), a Client Error message for 4xx, a
Server Error message for 5xx. -/
def raiseForStatusMsg (status : Nat) (reason url : String) : Option String :=
  if 400 ≤ status ∧ status < 500 then
    some (toString status ++ " Client Error: " ++ reason ++ " for url: " ++ url)
  else if 500 ≤ status ∧ status < 600 then
    some (toString status ++ " Server Error: " ++ reason ++ " for url: " ++ url)
  else
    none

/-- The fixed message returned for a non-JSON Content-Type header. -/
def formatErrorMsg : String :=
  "Unexpected response format from API. Expected JSON."

/-- call_api (lines 20-37): POST to base_url ++ endpoint; any
RequestException (from the post, from raise_for_status, or from the JSON
decoder) yields `{"error": str(e)}`; a surviving response whose
Content-Type header is exactly "application/json" yields its decoded body;
any other Content-Type yields the fixed format error. `data` and `api_key`
only feed the network, abstracted by `t`. -/
def call_api (endpoint : String) (data : Obj) (api_key : String) (t : Transport) : Obj :=
  let api_url := base_url ++ endpoint
  match t with
  | .failure msg => [("error", Json.str msg)]
  | .response status reason contentType body =>
    match raiseForStatusMsg status reason api_url with
    | some msg => [("error", Json.str msg)]
    | none =>
      if contentType = some "application/json" then
        match body with
        | .inl o => o
        | .inr msg => [("error", Json.str msg)]
      else
        [("error", Json.str formatErrorMsg)]

/-- SessionState: the persistent per-session values. `form_values` starts
as the empty dict, `content_generated` false, `generated_content` None. -/
structure SessionState where
  form_values : Obj
  content_generated : Bool
  generated_content : Json
deriving Repr

/-- The session state as initialized on first render (lines 59-60, 98-101). -/
def SessionState.init : SessionState :=
  { form_values := [], content_generated := false, generated_content := Json.null }

/-- What one button press surfaces to the user. -/
inductive Outcome where
  | validationError (msg : String)
  | warning (msg : String)
  | apiError (errorValue : Json)
  | success (content : Json) (raw : Obj)
deriving Repr

/-- The single outbound HTTP request of an action, when one is made. -/
structure Request where
  endpoint : String
  payload : Obj
  api_key : String
deriving Repr

/-- The Generate Content handler (lines 104-164): API-key check, then the
content-type specific required-field check, then payload assembly; the
payload is stored into session form_values before the API call; an "error"
key in the response takes the error path, otherwise the "result" field (or
the fallback text) is stored and the generated flag set. Returns the new
session state, the request sent (none when validation failed), and the
surfaced outcome. -/
def generate (f : FormFields) (st : SessionState) (t : Transport) :
    SessionState × Option Request × Outcome :=
  if f.api_key = "" then
    (st, none, Outcome.validationError "Please enter your API key.")
  else if f.selected_endpoint = ContentType.freeFormatContent ∧ f.prompt = "" then
    (st, none, Outcome.validationError "Please enter a prompt.")
  else if f.selected_endpoint ≠ ContentType.freeFormatContent ∧ f.destination_name = "" then
    (st, none, Outcome.validationError "Please enter a destination name.")
  else
    let data := buildData f
    let st1 := { st with form_values := data }
    let response := call_api (ENDPOINTS f.selected_endpoint) data f.api_key t
    let req := some { endpoint := ENDPOINTS f.selected_endpoint, payload := data,
                      api_key := f.api_key }
    if response.hasKey "error" then
      (st1, req, Outcome.apiError (response.getD "error" Json.null))
    else
      let content := response.getD "result" (Json.str "No content available")
      ({ st1 with content_generated := true, generated_content := content },
       req, Outcome.success content response)

/-- The FeedbackRequest payload (lines 177-188): a copy of the session
form_values with generated_content and user_feedback added, then model_id
re-added per the current model selection. -/
def feedbackData (f : FormFields) (feedback : String) (st : SessionState) : Obj :=
  let data := st.form_values
  let data := data.setKey "generated_content" st.generated_content
  let data := data.setKey "user_feedback" (Json.str feedback)
  addModelId f.selected_model data

/-- The Regenerate with Feedback handler (lines 172-203): empty feedback is
a warning and nothing is sent; otherwise the stored form_values are copied,
generated_content and user_feedback added, model_id re-added per the current
selection, and the same endpoint called; on success only generated_content
is overwritten. -/
def regenerateWithFeedback (f : FormFields) (feedback : String) (st : SessionState)
    (t : Transport) : SessionState × Option Request × Outcome :=
  if feedback = "" then
    (st, none, Outcome.warning "Please provide feedback before regenerating.")
  else
    let data := feedbackData f feedback st
    let response := call_api (ENDPOINTS f.selected_endpoint) data f.api_key t
    let req := some { endpoint := ENDPOINTS f.selected_endpoint, payload := data,
                      api_key := f.api_key }
    if response.hasKey "error" then
      (st, req, Outcome.apiError (response.getD "error" Json.null))
    else
      let content := response.getD "result" (Json.str "No content available")
      ({ st with generated_content := content }, req, Outcome.success content response)

/-- One user action on the page: a Generate press, or a Regenerate press
with the current feedback text. -/
inductive Event where
  | gen (f : FormFields) (t : Transport)
  | regen (f : FormFields) (feedback : String) (t : Transport)

/-- One step of the session: the Generate button is always rendered; the
whole feedback section, hence the Regenerate button, is rendered only when
content_generated is true (line 167), so a regen event on an ungenerated
session is a no-op. -/
def step (st : SessionState) : Event → SessionState
  | .gen f t => (generate f st t).1
  | .regen f fb t =>
      if st.content_generated then (regenerateWithFeedback f fb st t).1 else st

/-- A session: the initial state driven by a list of user actions. -/
def run (es : List Event) : SessionState :=
  es.foldl step SessionState.init

/-- A form passes the Generate Content validation: non-empty API key and a
non-empty main field for the selected content type. -/
def formValid (f : FormFields) : Prop :=
  ¬ f.api_key = "" ∧
    (if f.selected_endpoint = ContentType.freeFormatContent then ¬ f.prompt = ""
     else ¬ f.destination_name = "")

/-- Modelled from the spec: a 2xx HTTP status. -/
def is2xx (status : Nat) : Bool :=
  200 ≤ status ∧ status < 300

/-- Modelled from the spec: a Content-Type header denotes JSON when its media
type is application/json, with or without parameters such as a charset. -/
def isJsonContentType : Option String → Bool
  | none => false
  | some s =>
      s = "application/json" ∨ List.isPrefixOf "application/json;".data s.data

/- Lemmas on the object operations. -/

theorem Obj.get?_setKey_self (o : Obj) (k : String) (v : Json) :
    (o.setKey k v).get? k = some v := by
  induction o with
  | nil => simp [Obj.setKey, Obj.get?]
  | cons p rest ih =>
      obtain ⟨k', v'⟩ := p
      by_cases h : k' = k <;> simp [Obj.setKey, Obj.get?, h, ih]

theorem Obj.get?_setKey_ne (o : Obj) (k' k : String) (v : Json) (h : ¬ k' = k) :
    (o.setKey k' v).get? k = o.get? k := by
  induction o with
  | nil => simp [Obj.setKey, Obj.get?, h]
  | cons p rest ih =>
      obtain ⟨k'', v''⟩ := p
      by_cases h2 : k'' = k' <;> by_cases h3 : k'' = k <;>
        simp_all [Obj.setKey, Obj.get?]

theorem Obj.hasKey_eq_isSome (o : Obj) (k : String) :
    o.hasKey k = (o.get? k).isSome := by
  induction o with
  | nil => simp [Obj.hasKey, Obj.get?]
  | cons p rest ih =>
      obtain ⟨k', v⟩ := p
      by_cases h : k' = k
      · simp [Obj.hasKey, Obj.get?, h]
      · simp [Obj.hasKey, Obj.get?, h] at ih ⊢
        simp [ih]

theorem addIf_get?_self (b : Bool) (o : Obj) (k : String) (v : Json) :
    (addIf b o k v).get? k = if b then some v else o.get? k := by
  cases b <;> simp [addIf, Obj.get?_setKey_self]

theorem addIf_get?_ne (b : Bool) (o : Obj) (k' k : String) (v : Json)
    (h : ¬ k' = k) : (addIf b o k' v).get? k = o.get? k := by
  cases b <;> simp [addIf, Obj.get?_setKey_ne _ _ _ _ h]

theorem addModelId_get?_ne (m : Model) (o : Obj) (k : String)
    (h : ¬ k = "model_id") : (addModelId m o).get? k = o.get? k := by
  cases m <;> simp [addModelId, MODELS, Obj.get?_setKey_ne _ _ _ _ (fun hh => h hh.symm)]

theorem addModelId_get?_self (m : Model) (o : Obj) :
    (addModelId m o).get? "model_id" =
      match MODELS m with
      | some mid => some (Json.str mid)
      | none => o.get? "model_id" := by
  cases m <;> simp [addModelId, MODELS, Obj.get?_setKey_self]

theorem baseData_get?_of_ne (f : FormFields) (k : String)
    (h1 : ¬ k = "prompt") (h2 : ¬ k = "destination_name")
    (h3 : ¬ k = "trip_start_date") (h4 : ¬ k = "trip_end_date") :
    (baseData f).get? k = none := by
  unfold baseData
  split
  · rw [Obj.get?_setKey_ne _ _ _ _ (fun hh => h4 hh.symm),
        Obj.get?_setKey_ne _ _ _ _ (fun hh => h3 hh.symm),
        addIf_get?_ne _ _ _ _ _ (fun hh => h2 hh.symm)]
    simp only [Obj.get?]
    rw [if_neg (fun hh => h1 hh.symm)]
  · simp only [Obj.get?]
    rw [if_neg (fun hh => h2 hh.symm), if_neg (fun hh => h3 hh.symm),
        if_neg (fun hh => h4 hh.symm)]

theorem buildData_get?_client_age (f : FormFields) :
    (buildData f).get? "client_age" =
      if 0 < f.client_age then some (Json.num f.client_age) else none := by
  unfold buildData
  rw [addIf_get?_ne _ _ _ _ _ (by decide), addIf_get?_ne _ _ _ _ _ (by decide),
      addIf_get?_ne _ _ _ _ _ (by decide), addIf_get?_ne _ _ _ _ _ (by decide),
      addIf_get?_self, addModelId_get?_ne _ _ _ (by decide),
      baseData_get?_of_ne f _ (by decide) (by decide) (by decide) (by decide)]
  simp

theorem buildData_get?_number_of_trips (f : FormFields) :
    (buildData f).get? "number_of_trips" =
      if 0 < f.number_of_trips then some (Json.num f.number_of_trips) else none := by
  unfold buildData
  rw [addIf_get?_ne _ _ _ _ _ (by decide), addIf_get?_ne _ _ _ _ _ (by decide),
      addIf_get?_ne _ _ _ _ _ (by decide), addIf_get?_self,
      addIf_get?_ne _ _ _ _ _ (by decide), addModelId_get?_ne _ _ _ (by decide),
      baseData_get?_of_ne f _ (by decide) (by decide) (by decide) (by decide)]
  simp

theorem buildData_get?_days_to_birthday (f : FormFields) :
    (buildData f).get? "days_to_birthday" =
      if 0 < f.days_to_birthday then some (Json.num f.days_to_birthday) else none := by
  unfold buildData
  rw [addIf_get?_ne _ _ _ _ _ (by decide), addIf_get?_ne _ _ _ _ _ (by decide),
      addIf_get?_self, addIf_get?_ne _ _ _ _ _ (by decide),
      addIf_get?_ne _ _ _ _ _ (by decide), addModelId_get?_ne _ _ _ (by decide),
      baseData_get?_of_ne f _ (by decide) (by decide) (by decide) (by decide)]
  simp

theorem buildData_get?_client_since (f : FormFields) :
    (buildData f).get? "client_since" =
      if 0 < f.client_since then some (Json.num f.client_since) else none := by
  unfold buildData
  rw [addIf_get?_self, addIf_get?_ne _ _ _ _ _ (by decide),
      addIf_get?_ne _ _ _ _ _ (by decide), addIf_get?_ne _ _ _ _ _ (by decide),
      addIf_get?_ne _ _ _ _ _ (by decide), addModelId_get?_ne _ _ _ (by decide),
      baseData_get?_of_ne f _ (by decide) (by decide) (by decide) (by decide)]
  simp

theorem buildData_get?_places_visited (f : FormFields) :
    (buildData f).get? "places_visited" =
      if f.places_visited = "" then none
      else some (Json.arr ((parsePlaces f.places_visited).map Json.str)) := by
  unfold buildData
  rw [addIf_get?_ne _ _ _ _ _ (by decide), addIf_get?_self,
      addIf_get?_ne _ _ _ _ _ (by decide), addIf_get?_ne _ _ _ _ _ (by decide),
      addIf_get?_ne _ _ _ _ _ (by decide), addModelId_get?_ne _ _ _ (by decide),
      baseData_get?_of_ne f _ (by decide) (by decide) (by decide) (by decide)]
  by_cases h : f.places_visited = "" <;> simp [h]

theorem buildData_get?_model_id (f : FormFields) :
    (buildData f).get? "model_id" = (MODELS f.selected_model).map Json.str := by
  unfold buildData
  rw [addIf_get?_ne _ _ _ _ _ (by decide), addIf_get?_ne _ _ _ _ _ (by decide),
      addIf_get?_ne _ _ _ _ _ (by decide), addIf_get?_ne _ _ _ _ _ (by decide),
      addIf_get?_ne _ _ _ _ _ (by decide), addModelId_get?_self,
      baseData_get?_of_ne f _ (by decide) (by decide) (by decide) (by decide)]
  cases hm : MODELS f.selected_model <;> simp [hm]

/- Branch lemmas for the two handlers. -/

theorem generate_no_api_key (f : FormFields) (st : SessionState) (t : Transport)
    (h : f.api_key = "") :
    generate f st t = (st, none, Outcome.validationError "Please enter your API key.") := by
  simp only [generate, if_pos h]

theorem generate_no_prompt (f : FormFields) (st : SessionState) (t : Transport)
    (h1 : ¬ f.api_key = "") (h2 : f.selected_endpoint = ContentType.freeFormatContent)
    (h3 : f.prompt = "") :
    generate f st t = (st, none, Outcome.validationError "Please enter a prompt.") := by
  simp only [generate, if_neg h1, if_pos (And.intro h2 h3)]

theorem generate_no_destination (f : FormFields) (st : SessionState) (t : Transport)
    (h1 : ¬ f.api_key = "") (h2 : ¬ f.selected_endpoint = ContentType.freeFormatContent)
    (h3 : f.destination_name = "") :
    generate f st t = (st, none, Outcome.validationError "Please enter a destination name.") := by
  have hA : ¬ (f.selected_endpoint = ContentType.freeFormatContent ∧ f.prompt = "") :=
    fun hc => h2 hc.1
  simp only [generate, if_neg h1, if_neg hA, if_pos (And.intro h2 h3)]

theorem generate_not_validated (f : FormFields) (st : SessionState) (t : Transport)
    (hv : formValid f) :
    generate f st t =
      (if (call_api (ENDPOINTS f.selected_endpoint) (buildData f) f.api_key t).hasKey
          "error" then
        ({ st with form_values := buildData f },
         some ⟨ENDPOINTS f.selected_endpoint, buildData f, f.api_key⟩,
         Outcome.apiError
           ((call_api (ENDPOINTS f.selected_endpoint) (buildData f) f.api_key t).getD
             "error" Json.null))
      else
        ({ form_values := buildData f, content_generated := true,
           generated_content :=
             (call_api (ENDPOINTS f.selected_endpoint) (buildData f) f.api_key t).getD
               "result" (Json.str "No content available") },
         some ⟨ENDPOINTS f.selected_endpoint, buildData f, f.api_key⟩,
         Outcome.success
           ((call_api (ENDPOINTS f.selected_endpoint) (buildData f) f.api_key t).getD
             "result" (Json.str "No content available"))
           (call_api (ENDPOINTS f.selected_endpoint) (buildData f) f.api_key t))) := by
  obtain ⟨h1, h2⟩ := hv
  have hA : ¬ (f.selected_endpoint = ContentType.freeFormatContent ∧ f.prompt = "") := by
    rintro ⟨ha, hb⟩
    rw [if_pos ha] at h2
    exact h2 hb
  have hB : ¬ (¬ f.selected_endpoint = ContentType.freeFormatContent ∧
      f.destination_name = "") := by
    rintro ⟨ha, hb⟩
    rw [if_neg ha] at h2
    exact h2 hb
  simp only [generate, if_neg h1, if_neg hA, if_neg hB]

theorem generate_api_error (f : FormFields) (st : SessionState) (t : Transport)
    (hv : formValid f)
    (he : (call_api (ENDPOINTS f.selected_endpoint) (buildData f) f.api_key t).hasKey
      "error" = true) :
    generate f st t =
      ({ st with form_values := buildData f },
       some ⟨ENDPOINTS f.selected_endpoint, buildData f, f.api_key⟩,
       Outcome.apiError
         ((call_api (ENDPOINTS f.selected_endpoint) (buildData f) f.api_key t).getD
           "error" Json.null)) := by
  rw [generate_not_validated f st t hv, if_pos he]

theorem generate_success (f : FormFields) (st : SessionState) (t : Transport)
    (hv : formValid f)
    (he : (call_api (ENDPOINTS f.selected_endpoint) (buildData f) f.api_key t).hasKey
      "error" = false) :
    generate f st t =
      ({ form_values := buildData f, content_generated := true,
         generated_content :=
           (call_api (ENDPOINTS f.selected_endpoint) (buildData f) f.api_key t).getD
             "result" (Json.str "No content available") },
       some ⟨ENDPOINTS f.selected_endpoint, buildData f, f.api_key⟩,
       Outcome.success
         ((call_api (ENDPOINTS f.selected_endpoint) (buildData f) f.api_key t).getD
           "result" (Json.str "No content available"))
         (call_api (ENDPOINTS f.selected_endpoint) (buildData f) f.api_key t)) := by
  rw [generate_not_validated f st t hv, if_neg (by simp [he])]

theorem regen_empty_feedback (f : FormFields) (fb : String) (st : SessionState)
    (t : Transport) (h : fb = "") :
    regenerateWithFeedback f fb st t =
      (st, none, Outcome.warning "Please provide feedback before regenerating.") := by
  simp only [regenerateWithFeedback, if_pos h]

theorem regen_not_validated (f : FormFields) (fb : String) (st : SessionState)
    (t : Transport) (hfb : ¬ fb = "") :
    regenerateWithFeedback f fb st t =
      (if (call_api (ENDPOINTS f.selected_endpoint) (feedbackData f fb st) f.api_key
          t).hasKey "error" then
        (st, some ⟨ENDPOINTS f.selected_endpoint, feedbackData f fb st, f.api_key⟩,
         Outcome.apiError
           ((call_api (ENDPOINTS f.selected_endpoint) (feedbackData f fb st) f.api_key
             t).getD "error" Json.null))
      else
        ({ st with generated_content :=
             (call_api (ENDPOINTS f.selected_endpoint) (feedbackData f fb st) f.api_key
               t).getD "result" (Json.str "No content available") },
         some ⟨ENDPOINTS f.selected_endpoint, feedbackData f fb st, f.api_key⟩,
         Outcome.success
           ((call_api (ENDPOINTS f.selected_endpoint) (feedbackData f fb st) f.api_key
             t).getD "result" (Json.str "No content available"))
           (call_api (ENDPOINTS f.selected_endpoint) (feedbackData f fb st) f.api_key
             t))) := by
  simp only [regenerateWithFeedback, if_neg hfb]

theorem regen_api_error (f : FormFields) (fb : String) (st : SessionState)
    (t : Transport) (hfb : ¬ fb = "")
    (he : (call_api (ENDPOINTS f.selected_endpoint) (feedbackData f fb st) f.api_key
      t).hasKey "error" = true) :
    regenerateWithFeedback f fb st t =
      (st, some ⟨ENDPOINTS f.selected_endpoint, feedbackData f fb st, f.api_key⟩,
       Outcome.apiError
         ((call_api (ENDPOINTS f.selected_endpoint) (feedbackData f fb st) f.api_key
           t).getD "error" Json.null)) := by
  rw [regen_not_validated f fb st t hfb, if_pos he]

theorem regen_success (f : FormFields) (fb : String) (st : SessionState)
    (t : Transport) (hfb : ¬ fb = "")
    (he : (call_api (ENDPOINTS f.selected_endpoint) (feedbackData f fb st) f.api_key
      t).hasKey "error" = false) :
    regenerateWithFeedback f fb st t =
      ({ st with generated_content :=
           (call_api (ENDPOINTS f.selected_endpoint) (feedbackData f fb st) f.api_key
             t).getD "result" (Json.str "No content available") },
       some ⟨ENDPOINTS f.selected_endpoint, feedbackData f fb st, f.api_key⟩,
       Outcome.success
         ((call_api (ENDPOINTS f.selected_endpoint) (feedbackData f fb st) f.api_key
           t).getD "result" (Json.str "No content available"))
         (call_api (ENDPOINTS f.selected_endpoint) (feedbackData f fb st) f.api_key
           t)) := by
  rw [regen_not_validated f fb st t hfb, if_neg (by simp [he])]

/-- Exhaustive case split on one Generate press: a validation error leaving
the state intact and sending nothing, or (validation passed) an error
response, or a success. -/
theorem generate_shape (f : FormFields) (st : SessionState) (t : Transport) :
    (∃ m, generate f st t = (st, none, Outcome.validationError m)) ∨
    (formValid f ∧
      (((call_api (ENDPOINTS f.selected_endpoint) (buildData f) f.api_key t).hasKey
          "error" = true ∧
        generate f st t =
          ({ st with form_values := buildData f },
           some ⟨ENDPOINTS f.selected_endpoint, buildData f, f.api_key⟩,
           Outcome.apiError
             ((call_api (ENDPOINTS f.selected_endpoint) (buildData f) f.api_key t).getD
               "error" Json.null))) ∨
       ((call_api (ENDPOINTS f.selected_endpoint) (buildData f) f.api_key t).hasKey
          "error" = false ∧
        generate f st t =
          ({ form_values := buildData f, content_generated := true,
             generated_content :=
               (call_api (ENDPOINTS f.selected_endpoint) (buildData f) f.api_key t).getD
                 "result" (Json.str "No content available") },
           some ⟨ENDPOINTS f.selected_endpoint, buildData f, f.api_key⟩,
           Outcome.success
             ((call_api (ENDPOINTS f.selected_endpoint) (buildData f) f.api_key t).getD
               "result" (Json.str "No content available"))
             (call_api (ENDPOINTS f.selected_endpoint) (buildData f) f.api_key t))))) := by
  by_cases h1 : f.api_key = ""
  · exact Or.inl ⟨_, generate_no_api_key f st t h1⟩
  by_cases hfree : f.selected_endpoint = ContentType.freeFormatContent
  · by_cases hp : f.prompt = ""
    · exact Or.inl ⟨_, generate_no_prompt f st t h1 hfree hp⟩
    · have hv : formValid f := ⟨h1, by rw [if_pos hfree]; exact hp⟩
      refine Or.inr ⟨hv, ?_⟩
      cases he : (call_api (ENDPOINTS f.selected_endpoint) (buildData f) f.api_key
          t).hasKey "error"
      · exact Or.inr ⟨rfl, generate_success f st t hv he⟩
      · exact Or.inl ⟨rfl, generate_api_error f st t hv he⟩
  · by_cases hd : f.destination_name = ""
    · exact Or.inl ⟨_, generate_no_destination f st t h1 hfree hd⟩
    · have hv : formValid f := ⟨h1, by rw [if_neg hfree]; exact hd⟩
      refine Or.inr ⟨hv, ?_⟩
      cases he : (call_api (ENDPOINTS f.selected_endpoint) (buildData f) f.api_key
          t).hasKey "error"
      · exact Or.inr ⟨rfl, generate_success f st t hv he⟩
      · exact Or.inl ⟨rfl, generate_api_error f st t hv he⟩

/-- Exhaustive case split on one Regenerate press: the empty-feedback
warning, or an error response, or a success. -/
theorem regen_shape (f : FormFields) (fb : String) (st : SessionState) (t : Transport) :
    (fb = "" ∧ regenerateWithFeedback f fb st t =
      (st, none, Outcome.warning "Please provide feedback before regenerating.")) ∨
    (¬ fb = "" ∧
      (((call_api (ENDPOINTS f.selected_endpoint) (feedbackData f fb st) f.api_key
          t).hasKey "error" = true ∧
        regenerateWithFeedback f fb st t =
          (st, some ⟨ENDPOINTS f.selected_endpoint, feedbackData f fb st, f.api_key⟩,
           Outcome.apiError
             ((call_api (ENDPOINTS f.selected_endpoint) (feedbackData f fb st)
               f.api_key t).getD "error" Json.null))) ∨
       ((call_api (ENDPOINTS f.selected_endpoint) (feedbackData f fb st) f.api_key
          t).hasKey "error" = false ∧
        regenerateWithFeedback f fb st t =
          ({ st with generated_content :=
               (call_api (ENDPOINTS f.selected_endpoint) (feedbackData f fb st)
                 f.api_key t).getD "result" (Json.str "No content available") },
           some ⟨ENDPOINTS f.selected_endpoint, feedbackData f fb st, f.api_key⟩,
           Outcome.success
             ((call_api (ENDPOINTS f.selected_endpoint) (feedbackData f fb st)
               f.api_key t).getD "result" (Json.str "No content available"))
             (call_api (ENDPOINTS f.selected_endpoint) (feedbackData f fb st)
               f.api_key t))))) := by
  by_cases hfb : fb = ""
  · exact Or.inl ⟨hfb, regen_empty_feedback f fb st t hfb⟩
  refine Or.inr ⟨hfb, ?_⟩
  cases he : (call_api (ENDPOINTS f.selected_endpoint) (feedbackData f fb st)
      f.api_key t).hasKey "error"
  · exact Or.inr ⟨rfl, regen_success f fb st t hfb he⟩
  · exact Or.inl ⟨rfl, regen_api_error f fb st t hfb he⟩

/- Concrete fixtures used by witnesses and counterexamples. -/

/-- A form with the default model, the hotel content type, destination
Paris and no optional fields filled in. -/
def sampleForm : FormFields :=
  { api_key := "key", selected_model := Model.claude35SonnetV2,
    selected_endpoint := ContentType.hotelDescription, prompt := "",
    destination_name := "Paris", trip_start_date := "2025-06-01",
    trip_end_date := "2025-06-10", client_age := 0, number_of_trips := 0,
    days_to_birthday := 0, places_visited := "", client_since := 0 }

/-- A session in the generated state, whose stored payload was submitted
with the alternative model (so it carries a model_id). -/
def llamaSession : SessionState :=
  { form_values :=
      [("destination_name", Json.str "Paris"),
       ("trip_start_date", Json.str "2025-06-01"),
       ("trip_end_date", Json.str "2025-06-10"),
       ("model_id", Json.str "us.meta.llama3-3-70b-instruct-v1:0")],
    content_generated := true, generated_content := Json.str "Enjoy Paris!" }

/-- C2 counterexample: the claim says the places_visited key is present iff
the split-trim-discard result is non-empty, so the input "," should yield no
key; the code tests the raw string, so "," yields the key with an empty
list. -/
theorem C2_counterexample :
    parsePlaces "," = [] ∧
    (buildData { sampleForm with places_visited := "," }).hasKey "places_visited" = true ∧
    (buildData { sampleForm with places_visited := "," }).get? "places_visited" =
      some (Json.arr []) :=
  ⟨rfl, rfl, rfl⟩

/-- C2 amended: buildPayload splits places_visited on commas, strips each
piece and discards empty pieces; the key is included iff the raw input
string is non-empty (so an all-empty-pieces input such as "," yields the key
with an empty list); the input "Paris, Rome ,  Tokyo," yields exactly
["Paris", "Rome", "Tokyo"]. -/
theorem C2_places_visited (f : FormFields) :
    ((buildData f).get? "places_visited" =
      if f.places_visited = "" then none
      else some (Json.arr ((parsePlaces f.places_visited).map Json.str))) ∧
    parsePlaces "Paris, Rome ,  Tokyo," = ["Paris", "Rome", "Tokyo"] ∧
    parsePlaces "" = [] :=
  ⟨buildData_get?_places_visited f, rfl, rfl⟩

/-- C4: with a non-empty API key, the Generate handler surfaces a validation
error iff the mandatory main field of the selected content type is empty:
the prompt for Free Format, the destination name otherwise. -/
theorem C4_required_field (f : FormFields) (st : SessionState) (t : Transport)
    (hkey : ¬ f.api_key = "") :
    (∃ m, (generate f st t).2.2 = Outcome.validationError m) ↔
      (if f.selected_endpoint = ContentType.freeFormatContent then f.prompt = ""
       else f.destination_name = "") := by
  by_cases hfree : f.selected_endpoint = ContentType.freeFormatContent
  · rw [if_pos hfree]
    by_cases hp : f.prompt = ""
    · rw [generate_no_prompt f st t hkey hfree hp]
      simp [hp]
    · have hv : formValid f := ⟨hkey, by rw [if_pos hfree]; exact hp⟩
      constructor
      · rintro ⟨m, hm⟩
        cases he : (call_api (ENDPOINTS f.selected_endpoint) (buildData f) f.api_key
            t).hasKey "error"
        · rw [generate_success f st t hv he] at hm
          exact absurd hm (by simp)
        · rw [generate_api_error f st t hv he] at hm
          exact absurd hm (by simp)
      · intro hp'
        exact absurd hp' hp
  · rw [if_neg hfree]
    by_cases hd : f.destination_name = ""
    · rw [generate_no_destination f st t hkey hfree hd]
      simp [hd]
    · have hv : formValid f := ⟨hkey, by rw [if_neg hfree]; exact hd⟩
      constructor
      · rintro ⟨m, hm⟩
        cases he : (call_api (ENDPOINTS f.selected_endpoint) (buildData f) f.api_key
            t).hasKey "error"
        · rw [generate_success f st t hv he] at hm
          exact absurd hm (by simp)
        · rw [generate_api_error f st t hv he] at hm
          exact absurd hm (by simp)
      · intro hd'
        exact absurd hd' hd

/-- C4 witness: a hotel-description form with an empty destination fails
validation; the same form with destination Paris does not. -/
theorem C4_required_field_witness :
    (∃ m, (generate { sampleForm with destination_name := "" } SessionState.init
      (Transport.failure "x")).2.2 = Outcome.validationError m) ∧
    ¬ (∃ m, (generate sampleForm SessionState.init
      (Transport.failure "x")).2.2 = Outcome.validationError m) := by
  constructor
  · exact (C4_required_field { sampleForm with destination_name := "" }
      SessionState.init (Transport.failure "x") (by decide)).2 (by simp [sampleForm])
  · intro hex
    have h := (C4_required_field sampleForm SessionState.init (Transport.failure "x")
      (by decide)).1 hex
    simp [sampleForm] at h

/-- C6: each of the four numeric optional fields is omitted from the payload
iff its (non-negative) value is 0 and otherwise included with exactly the
entered value. -/
theorem C6_numeric_fields (f : FormFields) :
    ((buildData f).get? "client_age" =
      if f.client_age = 0 then none else some (Json.num f.client_age)) ∧
    ((buildData f).get? "number_of_trips" =
      if f.number_of_trips = 0 then none else some (Json.num f.number_of_trips)) ∧
    ((buildData f).get? "days_to_birthday" =
      if f.days_to_birthday = 0 then none else some (Json.num f.days_to_birthday)) ∧
    ((buildData f).get? "client_since" =
      if f.client_since = 0 then none else some (Json.num f.client_since)) := by
  refine ⟨?_, ?_, ?_, ?_⟩
  · rw [buildData_get?_client_age f]
    by_cases h : f.client_age = 0 <;> simp [h, Nat.pos_of_ne_zero]
  · rw [buildData_get?_number_of_trips f]
    by_cases h : f.number_of_trips = 0 <;> simp [h, Nat.pos_of_ne_zero]
  · rw [buildData_get?_days_to_birthday f]
    by_cases h : f.days_to_birthday = 0 <;> simp [h, Nat.pos_of_ne_zero]
  · rw [buildData_get?_client_since f]
    by_cases h : f.client_since = 0 <;> simp [h, Nat.pos_of_ne_zero]

/-- C7: an empty API key, an empty mandatory main field, or empty feedback
text each abort the action with an inline message, leave the session state
untouched, and send no request (the request component is none). -/
theorem C7_validation_blocks_network :
    (∀ (f : FormFields) (st : SessionState) (t : Transport), f.api_key = "" →
      generate f st t =
        (st, none, Outcome.validationError "Please enter your API key.")) ∧
    (∀ (f : FormFields) (st : SessionState) (t : Transport), ¬ f.api_key = "" →
      f.selected_endpoint = ContentType.freeFormatContent → f.prompt = "" →
      generate f st t =
        (st, none, Outcome.validationError "Please enter a prompt.")) ∧
    (∀ (f : FormFields) (st : SessionState) (t : Transport), ¬ f.api_key = "" →
      ¬ f.selected_endpoint = ContentType.freeFormatContent → f.destination_name = "" →
      generate f st t =
        (st, none, Outcome.validationError "Please enter a destination name.")) ∧
    (∀ (f : FormFields) (fb : String) (st : SessionState) (t : Transport), fb = "" →
      regenerateWithFeedback f fb st t =
        (st, none, Outcome.warning "Please provide feedback before regenerating.")) :=
  ⟨generate_no_api_key, generate_no_prompt, generate_no_destination,
   regen_empty_feedback⟩

/-- C7 witness: the four aborts at concrete inputs. -/
theorem C7_validation_blocks_network_witness :
    generate { sampleForm with api_key := "" } SessionState.init (Transport.failure "x") =
      (SessionState.init, none, Outcome.validationError "Please enter your API key.") ∧
    generate { sampleForm with selected_endpoint := ContentType.freeFormatContent }
        SessionState.init (Transport.failure "x") =
      (SessionState.init, none, Outcome.validationError "Please enter a prompt.") ∧
    generate { sampleForm with destination_name := "" } SessionState.init
        (Transport.failure "x") =
      (SessionState.init, none, Outcome.validationError "Please enter a destination name.") ∧
    regenerateWithFeedback sampleForm "" llamaSession (Transport.failure "x") =
      (llamaSession, none, Outcome.warning "Please provide feedback before regenerating.") :=
  ⟨C7_validation_blocks_network.1 _ SessionState.init (Transport.failure "x") rfl,
   C7_validation_blocks_network.2.1 _ SessionState.init (Transport.failure "x")
     (by decide) rfl rfl,
   C7_validation_blocks_network.2.2.1 _ SessionState.init (Transport.failure "x")
     (by decide) (by decide) rfl,
   C7_validation_blocks_network.2.2.2 sampleForm "" llamaSession
     (Transport.failure "x") rfl⟩

/-- C8: a generate payload carries no model_id under the default model and
carries exactly the alternative identifier under the alternative model. -/
theorem C8_model_id (f : FormFields) :
    (f.selected_model = Model.claude35SonnetV2 →
      (buildData f).get? "model_id" = none) ∧
    (f.selected_model = Model.llama3070b →
      (buildData f).get? "model_id" =
        some (Json.str "us.meta.llama3-3-70b-instruct-v1:0")) := by
  constructor
  · intro h
    rw [buildData_get?_model_id f, h]
    rfl
  · intro h
    rw [buildData_get?_model_id f, h]
    rfl

/-- C8 witness: the sample form under both model selections. -/
theorem C8_model_id_witness :
    (buildData sampleForm).get? "model_id" = none ∧
    (buildData { sampleForm with selected_model := Model.llama3070b }).get?
        "model_id" = some (Json.str "us.meta.llama3-3-70b-instruct-v1:0") :=
  ⟨(C8_model_id sampleForm).1 rfl,
   (C8_model_id { sampleForm with selected_model := Model.llama3070b }).2 rfl⟩

/-- C1 counterexample: a Generate press that passes validation and then
fails at the API still overwrites the stored payload, because form_values is
committed before the call; here the stored payload loses its model_id. -/
theorem C1_counterexample :
    (generate sampleForm llamaSession (Transport.failure "boom")).2.2 =
      Outcome.apiError (Json.str "boom") ∧
    (generate sampleForm llamaSession (Transport.failure "boom")).1.form_values ≠
      llamaSession.form_values := by
  refine ⟨rfl, ?_⟩
  intro h
  have h2 : Obj.get?
      (generate sampleForm llamaSession (Transport.failure "boom")).1.form_values
      "model_id" = none := rfl
  rw [h] at h2
  have h3 : Obj.get? llamaSession.form_values "model_id" =
      some (Json.str "us.meta.llama3-3-70b-instruct-v1:0") := rfl
  rw [h3] at h2
  exact Option.noConfusion h2

/-- C1 amended: every error leaves the stored generated content and the
content-generated flag untouched; a validation error or a regeneration
error leaves the whole session state untouched; but a Generate press that
passes validation commits the newly built payload to form_values before the
call, so an API error leaves that new payload in place. -/
theorem C1_error_state_preservation :
    (∀ (f : FormFields) (st : SessionState) (t : Transport) (m : String),
      (generate f st t).2.2 = Outcome.validationError m →
      (generate f st t).1 = st) ∧
    (∀ (f : FormFields) (st : SessionState) (t : Transport) (v : Json),
      (generate f st t).2.2 = Outcome.apiError v →
      (generate f st t).1.content_generated = st.content_generated ∧
      (generate f st t).1.generated_content = st.generated_content ∧
      (generate f st t).1.form_values = buildData f) ∧
    (∀ (f : FormFields) (fb : String) (st : SessionState) (t : Transport) (m : String),
      (regenerateWithFeedback f fb st t).2.2 = Outcome.warning m →
      (regenerateWithFeedback f fb st t).1 = st) ∧
    (∀ (f : FormFields) (fb : String) (st : SessionState) (t : Transport) (v : Json),
      (regenerateWithFeedback f fb st t).2.2 = Outcome.apiError v →
      (regenerateWithFeedback f fb st t).1 = st) := by
  refine ⟨?_, ?_, ?_, ?_⟩
  · intro f st t m hm
    rcases generate_shape f st t with ⟨m', hg⟩ | ⟨hv, ⟨he, hg⟩ | ⟨he, hg⟩⟩
    · rw [hg]
    · rw [hg] at hm
      exact absurd hm (by simp)
    · rw [hg] at hm
      exact absurd hm (by simp)
  · intro f st t v hm
    rcases generate_shape f st t with ⟨m', hg⟩ | ⟨hv, ⟨he, hg⟩ | ⟨he, hg⟩⟩
    · rw [hg] at hm
      exact absurd hm (by simp)
    · rw [hg]
      exact ⟨rfl, rfl, rfl⟩
    · rw [hg] at hm
      exact absurd hm (by simp)
  · intro f fb st t m hm
    rcases regen_shape f fb st t with ⟨hfb, hg⟩ | ⟨hfb, ⟨he, hg⟩ | ⟨he, hg⟩⟩
    · rw [hg]
    · rw [hg] at hm
      exact absurd hm (by simp)
    · rw [hg] at hm
      exact absurd hm (by simp)
  · intro f fb st t v hm
    rcases regen_shape f fb st t with ⟨hfb, hg⟩ | ⟨hfb, ⟨he, hg⟩ | ⟨he, hg⟩⟩
    · rw [hg] at hm
      exact absurd hm (by simp)
    · rw [hg]
    · rw [hg] at hm
      exact absurd hm (by simp)

/-- C1 witness: concrete error runs of both handlers; the per-claim theorem
is applied with each hypothesis discharged at these inputs. -/
theorem C1_error_state_preservation_witness :
    (generate { sampleForm with api_key := "" } llamaSession
      (Transport.failure "x")).1 = llamaSession ∧
    ((generate sampleForm llamaSession (Transport.failure "boom")).1.content_generated =
       llamaSession.content_generated ∧
     (generate sampleForm llamaSession (Transport.failure "boom")).1.generated_content =
       llamaSession.generated_content ∧
     (generate sampleForm llamaSession (Transport.failure "boom")).1.form_values =
       buildData sampleForm) ∧
    (regenerateWithFeedback sampleForm "" llamaSession (Transport.failure "x")).1 =
      llamaSession ∧
    (regenerateWithFeedback sampleForm "shorter" llamaSession
      (Transport.failure "boom")).1 = llamaSession :=
  ⟨C1_error_state_preservation.1 _ llamaSession (Transport.failure "x")
     "Please enter your API key." rfl,
   C1_error_state_preservation.2.1 sampleForm llamaSession (Transport.failure "boom")
     (Json.str "boom") rfl,
   C1_error_state_preservation.2.2.1 sampleForm "" llamaSession (Transport.failure "x")
     "Please provide feedback before regenerating." rfl,
   C1_error_state_preservation.2.2.2 sampleForm "shorter" llamaSession
     (Transport.failure "boom") (Json.str "boom") rfl⟩

/-- C3 counterexample: regenerating with the default model selected after a
generation that used the alternative model still sends a model_id, because
the stored payload is copied verbatim and the key is never removed. -/
theorem C3_counterexample :
    MODELS sampleForm.selected_model = none ∧
    ((regenerateWithFeedback sampleForm "make it shorter" llamaSession
        (Transport.failure "boom")).2.1.map
      (fun r => r.payload.hasKey "model_id")) = some true :=
  ⟨rfl, rfl⟩

/-- C3 amended: the FeedbackRequest is the stored payload copied verbatim
(every key other than generated_content, user_feedback and model_id is
unchanged), plus generated_content set to the stored text and user_feedback
set to the feedback text; model_id is overwritten with the current model
identifier when the non-default model is selected, while under the default
model any model_id already present in the stored payload is retained. -/
theorem C3_feedback_request (f : FormFields) (fb : String) (st : SessionState)
    (t : Transport) (hfb : ¬ fb = "") :
    (regenerateWithFeedback f fb st t).2.1 =
      some ⟨ENDPOINTS f.selected_endpoint, feedbackData f fb st, f.api_key⟩ ∧
    (∀ k, ¬ k = "generated_content" → ¬ k = "user_feedback" → ¬ k = "model_id" →
      (feedbackData f fb st).get? k = st.form_values.get? k) ∧
    (feedbackData f fb st).get? "generated_content" = some st.generated_content ∧
    (feedbackData f fb st).get? "user_feedback" = some (Json.str fb) ∧
    (f.selected_model = Model.llama3070b →
      (feedbackData f fb st).get? "model_id" =
        some (Json.str "us.meta.llama3-3-70b-instruct-v1:0")) ∧
    (f.selected_model = Model.claude35SonnetV2 →
      (feedbackData f fb st).get? "model_id" = st.form_values.get? "model_id") := by
  refine ⟨?_, ?_, ?_, ?_, ?_, ?_⟩
  · rcases regen_shape f fb st t with ⟨hfb', hg⟩ | ⟨hfb', ⟨he, hg⟩ | ⟨he, hg⟩⟩
    · exact absurd hfb' hfb
    · rw [hg]
    · rw [hg]
  · intro k h1 h2 h3
    unfold feedbackData
    rw [addModelId_get?_ne _ _ _ h3,
        Obj.get?_setKey_ne _ _ _ _ (fun hh => h2 hh.symm),
        Obj.get?_setKey_ne _ _ _ _ (fun hh => h1 hh.symm)]
  · unfold feedbackData
    rw [addModelId_get?_ne _ _ _ (by decide),
        Obj.get?_setKey_ne _ _ _ _ (by decide), Obj.get?_setKey_self]
  · unfold feedbackData
    rw [addModelId_get?_ne _ _ _ (by decide), Obj.get?_setKey_self]
  · intro h
    simp only [feedbackData, addModelId, h, MODELS]
    rw [Obj.get?_setKey_self]
  · intro h
    simp only [feedbackData, addModelId, h, MODELS]
    rw [Obj.get?_setKey_ne _ _ _ _ (by decide),
        Obj.get?_setKey_ne _ _ _ _ (by decide)]

/-- C3 witness: the amended theorem applied to a concrete regeneration with
feedback "make it shorter" on the stored llama payload. -/
theorem C3_feedback_request_witness :
    (regenerateWithFeedback sampleForm "make it shorter" llamaSession
        (Transport.failure "boom")).2.1 =
      some ⟨ENDPOINTS sampleForm.selected_endpoint,
        feedbackData sampleForm "make it shorter" llamaSession,
        sampleForm.api_key⟩ ∧
    (feedbackData sampleForm "make it shorter" llamaSession).get?
        "generated_content" = some (Json.str "Enjoy Paris!") ∧
    (feedbackData sampleForm "make it shorter" llamaSession).get?
        "user_feedback" = some (Json.str "make it shorter") ∧
    (feedbackData sampleForm "make it shorter" llamaSession).get?
        "destination_name" = llamaSession.form_values.get? "destination_name" := by
  have h := C3_feedback_request sampleForm "make it shorter" llamaSession
    (Transport.failure "boom") (by decide)
  exact ⟨h.1, h.2.2.1, h.2.2.2.1,
    h.2.1 "destination_name" (by decide) (by decide) (by decide)⟩

/-- C5 counterexample: the claim fails twice on the code. A non-2xx status
below 400 (here 304) passes raise_for_status, so its JSON body is returned
instead of an error object; and a JSON content type with a charset
parameter is not the exact header the code compares against, so a 2xx JSON
response is turned into the fixed format error instead of being returned
decoded. -/
theorem C5_counterexample :
    (is2xx 304 = false ∧
      call_api "/generate-hotel-reservation" [] "key"
        (Transport.response 304 "Not Modified" (some "application/json")
          (Sum.inl [("result", Json.str "cached")])) =
        [("result", Json.str "cached")] ∧
      Obj.hasKey [("result", Json.str "cached")] "error" = false) ∧
    (is2xx 200 = true ∧
      isJsonContentType (some "application/json; charset=utf-8") = true ∧
      call_api "/generate-hotel-reservation" [] "key"
        (Transport.response 200 "OK" (some "application/json; charset=utf-8")
          (Sum.inl [("result", Json.str "hi")])) =
        [("error", Json.str formatErrorMsg)]) :=
  ⟨⟨rfl, rfl, rfl⟩, ⟨rfl, by decide, rfl⟩⟩

/-- C5 amended: call_api is a total function (no unhandled fault); a
transport failure returns its message verbatim as the error; a status in
[400, 600) returns the raise_for_status message verbatim as the error; any
other status with a Content-Type header exactly "application/json" returns
the decoded body unmodified (or the decoder message as the error when the
body is not valid JSON); any other status with any other Content-Type
returns the fixed format error. -/
theorem C5_call_api (endpoint : String) (data : Obj) (key : String) :
    (∀ msg, call_api endpoint data key (Transport.failure msg) =
      [("error", Json.str msg)]) ∧
    (∀ status reason ct body, 400 ≤ status → status < 600 →
      ∃ m, raiseForStatusMsg status reason (base_url ++ endpoint) = some m ∧
        call_api endpoint data key (Transport.response status reason ct body) =
          [("error", Json.str m)]) ∧
    (∀ status reason body, ¬ (400 ≤ status ∧ status < 600) →
      (∀ o, body = Sum.inl o →
        call_api endpoint data key
          (Transport.response status reason (some "application/json") body) = o) ∧
      (∀ m, body = Sum.inr m →
        call_api endpoint data key
          (Transport.response status reason (some "application/json") body) =
          [("error", Json.str m)])) ∧
    (∀ status reason ct body, ¬ (400 ≤ status ∧ status < 600) →
      ¬ ct = some "application/json" →
      call_api endpoint data key (Transport.response status reason ct body) =
        [("error", Json.str formatErrorMsg)]) := by
  refine ⟨fun msg => rfl, ?_, ?_, ?_⟩
  · intro status reason ct body h4 h6
    by_cases h5 : status < 500
    · have hm : raiseForStatusMsg status reason (base_url ++ endpoint) =
          some (toString status ++ " Client Error: " ++ reason ++ " for url: " ++
            (base_url ++ endpoint)) := by
        unfold raiseForStatusMsg
        rw [if_pos ⟨h4, h5⟩]
      refine ⟨_, hm, ?_⟩
      simp only [call_api, hm]
    · have h5' : 500 ≤ status := Nat.le_of_not_lt h5
      have hns : ¬ (400 ≤ status ∧ status < 500) := fun hc => h5 hc.2
      have hm : raiseForStatusMsg status reason (base_url ++ endpoint) =
          some (toString status ++ " Server Error: " ++ reason ++ " for url: " ++
            (base_url ++ endpoint)) := by
        unfold raiseForStatusMsg
        rw [if_neg hns, if_pos ⟨h5', h6⟩]
      refine ⟨_, hm, ?_⟩
      simp only [call_api, hm]
  · intro status reason body hno
    have hmsg : raiseForStatusMsg status reason (base_url ++ endpoint) = none := by
      unfold raiseForStatusMsg
      rw [if_neg (fun hc => hno ⟨hc.1, Nat.lt_of_lt_of_le hc.2 (by omega)⟩),
          if_neg (fun hc => hno ⟨Nat.le_trans (by omega) hc.1, hc.2⟩)]
    constructor
    · intro o ho
      subst ho
      simp only [call_api, hmsg]
      simp
    · intro m hm
      subst hm
      simp only [call_api, hmsg]
      simp
  · intro status reason ct body hno hct
    have hmsg : raiseForStatusMsg status reason (base_url ++ endpoint) = none := by
      unfold raiseForStatusMsg
      rw [if_neg (fun hc => hno ⟨hc.1, Nat.lt_of_lt_of_le hc.2 (by omega)⟩),
          if_neg (fun hc => hno ⟨Nat.le_trans (by omega) hc.1, hc.2⟩)]
    simp only [call_api, hmsg]
    rw [if_neg hct]

/-- C5 witness: the amended theorem applied at a transport failure, a 404,
a decoded 200, an undecodable 200, and a 200 with an HTML content type. -/
theorem C5_call_api_witness :
    call_api "/x" [] "k" (Transport.failure "boom") = [("error", Json.str "boom")] ∧
    (∃ m, raiseForStatusMsg 404 "Not Found" (base_url ++ "/x") = some m ∧
      call_api "/x" [] "k" (Transport.response 404 "Not Found"
        (some "application/json") (Sum.inl [])) = [("error", Json.str m)]) ∧
    call_api "/x" [] "k" (Transport.response 200 "OK" (some "application/json")
      (Sum.inl [("result", Json.str "r")])) = [("result", Json.str "r")] ∧
    call_api "/x" [] "k" (Transport.response 200 "OK" (some "application/json")
      (Sum.inr "Expecting value")) = [("error", Json.str "Expecting value")] ∧
    call_api "/x" [] "k" (Transport.response 200 "OK" (some "text/html")
      (Sum.inl [])) = [("error", Json.str formatErrorMsg)] :=
  ⟨(C5_call_api "/x" [] "k").1 "boom",
   (C5_call_api "/x" [] "k").2.1 404 "Not Found" (some "application/json")
     (Sum.inl []) (by decide) (by decide),
   ((C5_call_api "/x" [] "k").2.2.1 200 "OK" (Sum.inl [("result", Json.str "r")])
     (by decide)).1 _ rfl,
   ((C5_call_api "/x" [] "k").2.2.1 200 "OK" (Sum.inr "Expecting value")
     (by decide)).2 _ rfl,
   (C5_call_api "/x" [] "k").2.2.2 200 "OK" (some "text/html") (Sum.inl [])
     (by decide) (by decide)⟩

/-- A successful JSON response carrying a result. -/
def okResponse : Transport :=
  Transport.response 200 "OK" (some "application/json")
    (Sum.inl [("result", Json.str "Enjoy Paris!")])

/-- C9: the content-generated flag starts false; once true it stays true
under every step; it turns true from false only through a Generate press
whose outcome is a success; a Generate press with no successful outcome
leaves the flag and the stored generated content unchanged, and a
Regenerate press with no successful outcome leaves the whole state
unchanged; the Regenerate button is a no-op whenever the flag is false,
since the feedback section is rendered only when it is true. -/
theorem C9_state_machine :
    SessionState.init.content_generated = false ∧
    (∀ (st : SessionState) (e : Event), st.content_generated = true →
      (step st e).content_generated = true) ∧
    (∀ (st : SessionState) (e : Event), st.content_generated = false →
      (step st e).content_generated = true →
      ∃ f t, e = Event.gen f t ∧
        ∃ c raw, (generate f st t).2.2 = Outcome.success c raw) ∧
    (∀ (f : FormFields) (st : SessionState) (t : Transport),
      (∀ c raw, ¬ (generate f st t).2.2 = Outcome.success c raw) →
      (step st (Event.gen f t)).content_generated = st.content_generated ∧
      (step st (Event.gen f t)).generated_content = st.generated_content) ∧
    (∀ (f : FormFields) (fb : String) (st : SessionState) (t : Transport),
      (∀ c raw, ¬ (regenerateWithFeedback f fb st t).2.2 = Outcome.success c raw) →
      step st (Event.regen f fb t) = st) ∧
    (∀ (st : SessionState) (f : FormFields) (fb : String) (t : Transport),
      st.content_generated = false → step st (Event.regen f fb t) = st) := by
  refine ⟨rfl, ?_, ?_, ?_, ?_, ?_⟩
  · intro st e h
    cases e with
    | gen f t =>
        rcases generate_shape f st t with ⟨m, hg⟩ | ⟨hv, ⟨he, hg⟩ | ⟨he, hg⟩⟩ <;>
          simp [step, hg, h]
    | regen f fb t =>
        rcases regen_shape f fb st t with ⟨hfb, hg⟩ | ⟨hfb, ⟨he, hg⟩ | ⟨he, hg⟩⟩ <;>
          simp [step, hg, h]
  · intro st e h0 h1
    cases e with
    | gen f t =>
        rcases generate_shape f st t with ⟨m, hg⟩ | ⟨hv, ⟨he, hg⟩ | ⟨he, hg⟩⟩
        · simp only [step, hg] at h1
          rw [h0] at h1
          exact Bool.noConfusion h1
        · simp only [step, hg] at h1
          rw [h0] at h1
          exact Bool.noConfusion h1
        · refine ⟨f, t, rfl, ?_⟩
          rw [hg]
          exact ⟨_, _, rfl⟩
    | regen f fb t =>
        simp [step, h0] at h1
  · intro f st t hns
    rcases generate_shape f st t with ⟨m, hg⟩ | ⟨hv, ⟨he, hg⟩ | ⟨he, hg⟩⟩
    · simp [step, hg]
    · simp [step, hg]
    · exact absurd (by rw [hg]) (hns _ _)
  · intro f fb st t hns
    cases hflag : st.content_generated
    · simp [step, hflag]
    · rcases regen_shape f fb st t with ⟨hfb, hg⟩ | ⟨hfb, ⟨he, hg⟩ | ⟨he, hg⟩⟩
      · simp [step, hflag, hg]
      · simp [step, hflag, hg]
      · exact absurd (by rw [hg]) (hns _ _)
  · intro st f fb t h0
    simp [step, h0]

/-- C9 witness: the flag clauses of the state-machine theorem discharged on
a concrete session: a failed Generate on a generated session keeps the flag
true, a successful Generate on a fresh session is the only way it turned
true, failed presses leave the tracked components unchanged, and Regenerate
is a no-op on a fresh session. -/
theorem C9_state_machine_witness :
    (step llamaSession (Event.gen sampleForm (Transport.failure "x"))).content_generated =
      true ∧
    (∃ f t, Event.gen sampleForm okResponse = Event.gen f t ∧
      ∃ c raw, (generate f SessionState.init t).2.2 = Outcome.success c raw) ∧
    ((step SessionState.init
        (Event.gen sampleForm (Transport.failure "x"))).content_generated =
      SessionState.init.content_generated ∧
     (step SessionState.init
        (Event.gen sampleForm (Transport.failure "x"))).generated_content =
      SessionState.init.generated_content) ∧
    step llamaSession (Event.regen sampleForm "shorter" (Transport.failure "x")) =
      llamaSession ∧
    step SessionState.init (Event.regen sampleForm "shorter" okResponse) =
      SessionState.init := by
  refine ⟨C9_state_machine.2.1 llamaSession _ rfl,
    C9_state_machine.2.2.1 SessionState.init (Event.gen sampleForm okResponse) rfl rfl,
    C9_state_machine.2.2.2.1 sampleForm SessionState.init (Transport.failure "x") ?_,
    C9_state_machine.2.2.2.2.1 sampleForm "shorter" llamaSession
      (Transport.failure "x") ?_,
    C9_state_machine.2.2.2.2.2 SessionState.init sampleForm "shorter" okResponse rfl⟩
  · intro c raw h
    rw [show (generate sampleForm SessionState.init (Transport.failure "x")).2.2 =
      Outcome.apiError (Json.str "x") from rfl] at h
    exact Outcome.noConfusion h
  · intro c raw h
    rw [show (regenerateWithFeedback sampleForm "shorter" llamaSession
      (Transport.failure "x")).2.2 = Outcome.apiError (Json.str "x") from rfl] at h
    exact Outcome.noConfusion h

/-- C10: once a request is sent, the error path is taken iff the decoded
response object carries an "error" key — in that case the outcome displays
that error value and the flag and stored content are untouched — and the
success path otherwise, storing the "result" value or the fallback text "No
content available" when "result" is absent; a response carrying both keys
takes the error path. -/
theorem C10_error_key_decides (f : FormFields) (st : SessionState) (t : Transport)
    (hv : formValid f) (fb : String) (hfb : ¬ fb = "") :
    ((call_api (ENDPOINTS f.selected_endpoint) (buildData f) f.api_key t).hasKey
        "error" = true →
      (generate f st t).2.2 = Outcome.apiError
        ((call_api (ENDPOINTS f.selected_endpoint) (buildData f) f.api_key t).getD
          "error" Json.null) ∧
      (generate f st t).1.content_generated = st.content_generated ∧
      (generate f st t).1.generated_content = st.generated_content) ∧
    ((call_api (ENDPOINTS f.selected_endpoint) (buildData f) f.api_key t).hasKey
        "error" = false →
      (generate f st t).2.2 = Outcome.success
        ((call_api (ENDPOINTS f.selected_endpoint) (buildData f) f.api_key t).getD
          "result" (Json.str "No content available"))
        (call_api (ENDPOINTS f.selected_endpoint) (buildData f) f.api_key t) ∧
      (generate f st t).1.content_generated = true ∧
      (generate f st t).1.generated_content =
        (call_api (ENDPOINTS f.selected_endpoint) (buildData f) f.api_key t).getD
          "result" (Json.str "No content available")) ∧
    ((call_api (ENDPOINTS f.selected_endpoint) (feedbackData f fb st) f.api_key
        t).hasKey "error" = true →
      (regenerateWithFeedback f fb st t).2.2 = Outcome.apiError
        ((call_api (ENDPOINTS f.selected_endpoint) (feedbackData f fb st) f.api_key
          t).getD "error" Json.null) ∧
      (regenerateWithFeedback f fb st t).1 = st) ∧
    ((call_api (ENDPOINTS f.selected_endpoint) (feedbackData f fb st) f.api_key
        t).hasKey "error" = false →
      (regenerateWithFeedback f fb st t).2.2 = Outcome.success
        ((call_api (ENDPOINTS f.selected_endpoint) (feedbackData f fb st) f.api_key
          t).getD "result" (Json.str "No content available"))
        (call_api (ENDPOINTS f.selected_endpoint) (feedbackData f fb st) f.api_key t) ∧
      (regenerateWithFeedback f fb st t).1.generated_content =
        (call_api (ENDPOINTS f.selected_endpoint) (feedbackData f fb st) f.api_key
          t).getD "result" (Json.str "No content available")) ∧
    (generate sampleForm SessionState.init
        (Transport.response 200 "OK" (some "application/json")
          (Sum.inl [("error", Json.str "quota"), ("result", Json.str "text")]))).2.2 =
      Outcome.apiError (Json.str "quota") ∧
    (generate sampleForm SessionState.init
        (Transport.response 200 "OK" (some "application/json")
          (Sum.inl [("error", Json.str "quota"),
            ("result", Json.str "text")]))).1.content_generated = false ∧
    (generate sampleForm SessionState.init
        (Transport.response 200 "OK" (some "application/json")
          (Sum.inl [("ok", Json.num 1)]))).2.2 =
      Outcome.success (Json.str "No content available") [("ok", Json.num 1)] := by
  refine ⟨?_, ?_, ?_, ?_, rfl, rfl, rfl⟩
  · intro he
    rw [generate_api_error f st t hv he]
    exact ⟨rfl, rfl, rfl⟩
  · intro he
    rw [generate_success f st t hv he]
    exact ⟨rfl, rfl, rfl⟩
  · intro he
    rw [regen_api_error f fb st t hfb he]
    exact ⟨rfl, rfl⟩
  · intro he
    rw [regen_success f fb st t hfb he]
    exact ⟨rfl, rfl⟩

/-- C10 witness: the decision theorem discharged on the sample form with an
error JSON response for Generate and a result JSON response for
Regenerate. -/
theorem C10_error_key_decides_witness :
    ((generate sampleForm llamaSession
        (Transport.response 200 "OK" (some "application/json")
          (Sum.inl [("error", Json.str "quota")]))).2.2 =
      Outcome.apiError (Json.str "quota") ∧
     (generate sampleForm llamaSession
        (Transport.response 200 "OK" (some "application/json")
          (Sum.inl [("error", Json.str "quota")]))).1.content_generated =
      llamaSession.content_generated) ∧
    ((regenerateWithFeedback sampleForm "shorter" llamaSession okResponse).2.2 =
      Outcome.success (Json.str "Enjoy Paris!")
        [("result", Json.str "Enjoy Paris!")] ∧
     (regenerateWithFeedback sampleForm "shorter" llamaSession
        okResponse).1.generated_content = Json.str "Enjoy Paris!") := by
  have h := C10_error_key_decides sampleForm llamaSession
    (Transport.response 200 "OK" (some "application/json")
      (Sum.inl [("error", Json.str "quota")]))
    ⟨by decide, by simp [sampleForm]⟩ "shorter" (by decide)
  have h2 := C10_error_key_decides sampleForm llamaSession okResponse
    ⟨by decide, by simp [sampleForm]⟩ "shorter" (by decide)
  exact ⟨⟨(h.1 rfl).1, (h.1 rfl).2.1⟩, ⟨(h2.2.2.2.1 rfl).1, (h2.2.2.2.1 rfl).2⟩⟩

end TravelApp
